import Mathlib

/-!
A shallow embedding of `src/main.py`, a Streamlit dashboard monitoring a
Qdrant collection: one health check per cycle (`check_api_health`), a 24-hour
sliding window of samples kept in the session state (`update_metrics`),
derived uptime statistics, the inline alert decision of the render loop, and
the auto-refresh scheduling condition.  Timestamps are rational seconds and
latencies rational milliseconds; the external Qdrant client is modelled as an
explicit environment recording the outcome of each call it can make.
-/

namespace QdrantMonitor

/-- Raw collection info returned by the Qdrant client (`client.get_collection`). -/
structure CollectionInfo where
  name : String
  vectors_count : Int
  points_count : Int
  segments_count : Int
deriving DecidableEq

/-- The sanitized info dict built in `check_api_health` (main.py lines 107-113). -/
structure SafeInfo where
  name : String
  status : String
  vectors_count : Int
  points_count : Int
  segments_count : Int
deriving DecidableEq

/-- The `details` component of a check outcome: either the sanitized info dict
(healthy case) or a failure-reason string (the three unhealthy cases). -/
inductive Detail where
  | info : SafeInfo → Detail
  | err : String → Detail
deriving DecidableEq

/-- The triple returned by `check_api_health`: `(status, details, response_time)`. -/
structure ProbeResult where
  healthy : Bool
  detail : Detail
  latency_ms : Option ℚ
deriving DecidableEq

/-- Outcomes of the external Qdrant client calls made inside one
`check_api_health` invocation: the collection listing (which can fail with a
connectivity error), the per-collection detail fetch (which can fail), and
the elapsed time in milliseconds measured at the success point. -/
structure QdrantEnv where
  get_collections : Except String (List String)
  get_collection : String → Except String CollectionInfo
  elapsed_ms : ℚ

/-- `check_api_health(collection_name)` (main.py lines 92-121).  Every failure
of the underlying client is caught and converted into a
`(False, reason, None)` result; the function is total and never raises. -/
def check_api_health (env : QdrantEnv) (collection_name : String) : ProbeResult :=
  match env.get_collections with
  | .error e =>
      { healthy := false
        detail := .err ("Failed to connect to Qdrant: " ++ e)
        latency_ms := none }
  | .ok cols =>
      if collection_name ∉ cols then
        { healthy := false
          detail := .err ("Collection '" ++ collection_name ++ "' not found")
          latency_ms := none }
      else
        match env.get_collection collection_name with
        | .error e =>
            { healthy := false
              detail := .err ("Failed to get collection info: " ++ e)
              latency_ms := none }
        | .ok ci =>
            { healthy := true
              detail := .info { name := ci.name, status := "green",
                                vectors_count := ci.vectors_count,
                                points_count := ci.points_count,
                                segments_count := ci.segments_count }
              latency_ms := some env.elapsed_ms }

/-- The Streamlit session state the monitor touches (main.py lines 38-43):
`last_check_time`, `health_history` as (timestamp, status) pairs and
`response_times` as (timestamp, response-time-ms) pairs. -/
structure SessionState where
  last_check_time : Option ℚ
  health_history : List (ℚ × Bool)
  response_times : List (ℚ × ℚ)
deriving DecidableEq

/-- The freshly initialised session state (all three keys empty). -/
def initSession : SessionState :=
  { last_check_time := none, health_history := [], response_times := [] }

/-- The 24-hour retention window `timedelta(hours=24)`, in seconds. -/
def retention_window : ℚ := 86400

/-- `update_metrics(status, response_time)` (main.py lines 123-132), with the
wall clock `datetime.now()` passed explicitly as `now`.  The Python source
guards the latency append with `if response_time:`, which is false both for
`None` and for a response time of exactly `0.0`; both lists are then pruned
with the same cutoff `now - timedelta(hours=24)`, keeping samples with
timestamp strictly greater than the cutoff. -/
def update_metrics (st : SessionState) (status : Bool) (response_time : Option ℚ)
    (now : ℚ) : SessionState :=
  let health := st.health_history ++ [(now, status)]
  let resp :=
    match response_time with
    | some r => if r ≠ 0 then st.response_times ++ [(now, r)] else st.response_times
    | none => st.response_times
  let cutoff := now - retention_window
  { last_check_time := some now
    health_history := health.filter (fun p => decide (cutoff < p.1))
    response_times := resp.filter (fun p => decide (cutoff < p.1)) }

/-- The uptime metric (main.py lines 264-271): `none` (the "No health history
available yet..." branch) on an empty history, otherwise
`(sum of statuses / number of samples) * 100`. -/
def uptime_percent (history : List (ℚ × Bool)) : Option ℚ :=
  if history.isEmpty then none
  else some (((history.countP (fun p => p.2) : ℚ) / (history.length : ℚ)) * 100)

/-- The alert verdict implicit in main.py lines 197-205: the error banner
(API down), the latency warning, or no alert. -/
inductive Verdict where
  | noAlert : Verdict
  | failure : Detail → Verdict
  | latencyBreach : ℚ → ℚ → Verdict
deriving DecidableEq

/-- The inline alert decision of main.py lines 197-205: an unhealthy result
shows the failure banner with its details; a healthy one warns exactly when
`response_time > alert_threshold` (strict).  In the source a healthy result
always carries a response time, so the healthy-without-latency branch is
unreachable from real check outcomes and is mapped to no alert. -/
def evaluate (result : ProbeResult) (alert_threshold : ℚ) : Verdict :=
  if result.healthy then
    match result.latency_ms with
    | some response_time =>
        if response_time > alert_threshold then .latencyBreach response_time alert_threshold
        else .noAlert
    | none => .noAlert
  else .failure result.detail

/-- The `seconds` attribute of a Python `timedelta` of `d` seconds: deltas are
normalised so that `.seconds` is the whole-seconds component in `[0, 86400)`,
that is `⌊d⌋ mod 86400` — not the total elapsed seconds. -/
def timedelta_seconds (d : ℚ) : ℤ := ⌊d⌋ % 86400

/-- The check trigger condition of main.py lines 189-192: run a check when the
button was pressed, when no check has run yet, or when
`(datetime.now() - last_check_time).seconds >= refresh_interval`. -/
def should_run_check (check_button : Bool) (last_check_time : Option ℚ) (now : ℚ)
    (refresh_interval : ℤ) : Bool :=
  check_button ||
    match last_check_time with
    | none => true
    | some last => decide (refresh_interval ≤ timedelta_seconds (now - last))

/-- Fold a sequence of `(status, response_time, now)` check outcomes through
`update_metrics`, starting from a given session state. -/
def run_updates (st : SessionState) (calls : List (Bool × Option ℚ × ℚ)) : SessionState :=
  calls.foldl (fun s c => update_metrics s c.1 c.2.1 c.2.2) st

/-- Two recorded checks four hours apart (times in seconds): one at `t = 0`
and one at `t = 14400`, both healthy. -/
def twoRecordTrace : SessionState :=
  update_metrics (update_metrics initSession true (some 100) 0) true (some 120) 14400

/-- A five-sample health history with three healthy and two unhealthy samples. -/
def fiveSampleHistory : List (ℚ × Bool) :=
  [(0, true), (1, true), (2, true), (3, false), (4, false)]

/-- An environment whose collection listing succeeds with the single
collection `"a"` (the detail fetch is never reached for a missing name). -/
def envMissing : QdrantEnv :=
  { get_collections := .ok ["a"], get_collection := fun _ => .error "unused", elapsed_ms := 0 }

/-- An environment in which both client calls succeed, with a measured
elapsed time of 5 ms. -/
def envHealthy : QdrantEnv :=
  { get_collections := .ok ["a"]
    get_collection := fun _ => .ok { name := "a", vectors_count := 1, points_count := 2,
                                     segments_count := 3 }
    elapsed_ms := 5 }

/-- C3: for every healthy probe result with a present latency and every
threshold, the inline alert decision reports a latency breach exactly when
the latency is strictly greater than the threshold; concretely, latency 600
against threshold 500 yields `latencyBreach 600 500`, and latency 500
against threshold 500 yields no alert. -/
theorem evaluate_latencyBreach_iff_strict :
    (∀ (d : Detail) (rt th : ℚ),
      evaluate ⟨true, d, some rt⟩ th = Verdict.latencyBreach rt th ↔ th < rt) ∧
    evaluate ⟨true, Detail.err "", some 600⟩ 500 = Verdict.latencyBreach 600 500 ∧
    evaluate ⟨true, Detail.err "", some 500⟩ 500 = Verdict.noAlert := by
  refine ⟨fun d rt th => ?_, by norm_num [evaluate], by norm_num [evaluate]⟩
  by_cases h : th < rt
  · simp [evaluate, h]
  · simp [evaluate, h]

/-- C4: for every probe result with `healthy = false` and every threshold,
the alert decision is `failure result.detail`, whatever the latency field
holds (including absent); the failure rule takes priority over the
latency-breach rule. -/
theorem evaluate_unhealthy_always_failure (d : Detail) (lm : Option ℚ) (th : ℚ) :
    evaluate ⟨false, d, lm⟩ th = Verdict.failure d := by
  simp [evaluate]

/-- C2 counterexample: a probe outcome whose latency is present but equal to
`0.0` is skipped by `update_metrics` — `if response_time:` is false for the
float `0.0` — so no latency sample is appended even though the latency is
present, while the health sample is appended. -/
theorem zero_latency_present_not_recorded :
    (update_metrics initSession true (some 0) 0).response_times = [] ∧
    (update_metrics initSession true (some 0) 0).health_history = [(0, true)] := by
  constructor
  · norm_num [update_metrics, initSession, retention_window]
  · norm_num [update_metrics, initSession, retention_window]

/-- C2 amended: `update_metrics` appends a latency sample exactly when the
response time is present and nonzero; a present response time of exactly `0`
is treated as falsy and skipped, and an absent one is skipped. -/
theorem update_metrics_latency_append_iff (st : SessionState) (status : Bool) (v now : ℚ) :
    (v ≠ 0 → (update_metrics st status (some v) now).response_times
      = (st.response_times ++ [(now, v)]).filter
          (fun p => decide (now - retention_window < p.1))) ∧
    (v = 0 → (update_metrics st status (some v) now).response_times
      = st.response_times.filter (fun p => decide (now - retention_window < p.1))) ∧
    (update_metrics st status none now).response_times
      = st.response_times.filter (fun p => decide (now - retention_window < p.1)) :=
  ⟨fun h => by simp [update_metrics, h],
   fun h => by simp [update_metrics, h],
   by simp [update_metrics]⟩

/-- Witness for `update_metrics_latency_append_iff` at a present, nonzero
response time of `1` recorded at time `0` into the fresh session. -/
theorem update_metrics_latency_append_iff_witness :
    (1 : ℚ) ≠ 0 ∧
    (update_metrics initSession true (some 1) 0).response_times
      = (initSession.response_times ++ [(0, 1)]).filter
          (fun p => decide ((0 : ℚ) - retention_window < p.1)) :=
  ⟨by norm_num, (update_metrics_latency_append_iff initSession true 1 0).1 (by norm_num)⟩

/-- C8: `uptime_percent` reports no data on an empty history, reports `60` on
three healthy plus two unhealthy samples, and on every non-empty history
equals `100 × (healthy count) / (total count)`. -/
theorem uptime_percent_spec :
    uptime_percent [] = none ∧
    uptime_percent fiveSampleHistory = some 60 ∧
    ∀ h : List (ℚ × Bool), h ≠ [] →
      uptime_percent h
        = some (100 * (h.countP (fun p => p.2) : ℚ) / (h.length : ℚ)) := by
  refine ⟨rfl, by norm_num [uptime_percent, fiveSampleHistory], fun h hne => ?_⟩
  rw [uptime_percent, if_neg (by simpa using hne)]
  congr 1
  ring

/-- Witness for `uptime_percent_spec` on the five-sample history. -/
theorem uptime_percent_spec_witness :
    fiveSampleHistory ≠ [] ∧
    uptime_percent fiveSampleHistory
      = some (100 * (fiveSampleHistory.countP (fun p => p.2) : ℚ)
          / (fiveSampleHistory.length : ℚ)) :=
  ⟨by simp [fiveSampleHistory],
   uptime_percent_spec.2.2 fiveSampleHistory (by simp [fiveSampleHistory])⟩

/-- C5: with the last check exactly 24 hours ago (86400 s), no manual
trigger, and a refresh interval of 60 s, the source's trigger condition
`(datetime.now() - last_check_time).seconds >= refresh_interval` is false —
`timedelta.seconds` is the sub-day component and wraps back to `0` at 24
hours — so no automatic check fires even though the elapsed time far exceeds
the refresh interval. -/
theorem auto_check_skipped_after_full_day :
    should_run_check false (some 0) 86400 60 = false ∧ (60 : ℚ) ≤ 86400 - 0 := by
  constructor
  · norm_num [should_run_check, timedelta_seconds]
  · norm_num

/-- The not-found detail string never coincides with a connection-failure
detail string, whatever the collection name and cause are. -/
theorem notFound_ne_connectFailed (n a : String) :
    ("Collection '" ++ n ++ "' not found") ≠ ("Failed to connect to Qdrant: " ++ a) := by
  intro h
  have h2 := congrArg (fun s => s.data.head?) h
  simp [String.data_append] at h2

/-- The not-found detail string never coincides with a detail-fetch-failure
detail string. -/
theorem notFound_ne_fetchFailed (n a : String) :
    ("Collection '" ++ n ++ "' not found") ≠ ("Failed to get collection info: " ++ a) := by
  intro h
  have h2 := congrArg (fun s => s.data.head?) h
  simp [String.data_append] at h2

/-- The detail-fetch-failure detail string never coincides with a
connection-failure detail string. -/
theorem fetchFailed_ne_connectFailed (a b : String) :
    ("Failed to get collection info: " ++ a) ≠ ("Failed to connect to Qdrant: " ++ b) := by
  intro h
  have h2 := congrArg (fun s => s.data[10]?) h
  simp [String.data_append] at h2

/-- C6: `check_api_health` is a total function of the environment — every
failure of the underlying client is returned as data, never raised — and its
outcome falls in exactly one of four shapes driven by the environment:
connection failure, collection not found, detail-fetch failure, or healthy
with the sanitized info and the measured latency.  Moreover the three
failure detail strings are pairwise distinct for all collection names and
causes, so the three failure classes are distinguishable from the returned
data alone. -/
theorem check_never_raises_and_classifies (env : QdrantEnv) (collection_name : String) :
    ((∃ e, env.get_collections = .error e ∧
        check_api_health env collection_name =
          ⟨false, .err ("Failed to connect to Qdrant: " ++ e), none⟩) ∨
     (∃ cols, env.get_collections = .ok cols ∧ collection_name ∉ cols ∧
        check_api_health env collection_name =
          ⟨false, .err ("Collection '" ++ collection_name ++ "' not found"), none⟩) ∨
     (∃ cols e, env.get_collections = .ok cols ∧ collection_name ∈ cols ∧
        env.get_collection collection_name = .error e ∧
        check_api_health env collection_name =
          ⟨false, .err ("Failed to get collection info: " ++ e), none⟩) ∨
     (∃ cols ci, env.get_collections = .ok cols ∧ collection_name ∈ cols ∧
        env.get_collection collection_name = .ok ci ∧
        check_api_health env collection_name =
          ⟨true,
           .info ⟨ci.name, "green", ci.vectors_count, ci.points_count, ci.segments_count⟩,
           some env.elapsed_ms⟩)) ∧
    (∀ n a b : String,
      ("Collection '" ++ n ++ "' not found") ≠ ("Failed to connect to Qdrant: " ++ a) ∧
      ("Collection '" ++ n ++ "' not found") ≠ ("Failed to get collection info: " ++ a) ∧
      ("Failed to get collection info: " ++ a) ≠ ("Failed to connect to Qdrant: " ++ b)) := by
  constructor
  · cases hcols : env.get_collections with
    | error e =>
        exact Or.inl ⟨e, rfl, by simp [check_api_health, hcols]⟩
    | ok cols =>
        by_cases hmem : collection_name ∈ cols
        · cases hfetch : env.get_collection collection_name with
          | error e =>
              exact Or.inr (Or.inr (Or.inl
                ⟨cols, e, rfl, hmem, rfl, by simp [check_api_health, hcols, hmem, hfetch]⟩))
          | ok ci =>
              exact Or.inr (Or.inr (Or.inr
                ⟨cols, ci, rfl, hmem, rfl, by simp [check_api_health, hcols, hmem, hfetch]⟩))
        · exact Or.inr (Or.inl
            ⟨cols, rfl, hmem, by simp [check_api_health, hcols, hmem]⟩)
  · exact fun n a b =>
      ⟨notFound_ne_connectFailed n a, notFound_ne_fetchFailed n a,
       fetchFailed_ne_connectFailed a b⟩

/-- Witness for `check_never_raises_and_classifies`: the not-found and
connection-failure details differ at a concrete name and cause. -/
theorem check_never_raises_and_classifies_witness :
    ("Collection '" ++ "qdrant" ++ "' not found")
      ≠ ("Failed to connect to Qdrant: " ++ "timeout") :=
  ((check_never_raises_and_classifies
      ⟨.error "timeout", fun _ => .error "timeout", 0⟩ "qdrant").2 "qdrant" "timeout" "timeout").1

/-- C1 counterexample: two checks are recorded at `t = 0` and `t = 14400`
(four hours apart); at a pure query 25 hours (90000 s) after the first
record, with no intervening record, the first sample is still present even
though it is older than `now - retention_window` — nothing prunes outside
`update_metrics` — and the uptime query observes both samples. -/
theorem stale_sample_survives_pure_query :
    twoRecordTrace.health_history = [(0, true), (14400, true)] ∧
    ((0 : ℚ), true) ∈ twoRecordTrace.health_history ∧
    (0 : ℚ) ≤ 90000 - retention_window ∧
    uptime_percent twoRecordTrace.health_history = some 100 := by
  have h : twoRecordTrace.health_history = [(0, true), (14400, true)] := by
    norm_num [twoRecordTrace, update_metrics, initSession, retention_window]
  refine ⟨h, by rw [h]; simp, by norm_num [retention_window], by rw [h]; norm_num [uptime_percent]⟩

/-- C1 amended: immediately after every `update_metrics` call, every sample
remaining in either list is strictly newer than `now - retention_window`;
the guarantee is for the state `update_metrics` returns, since pruning
happens only there. -/
theorem record_prunes_both_lists (st : SessionState) (status : Bool)
    (rt : Option ℚ) (now : ℚ) :
    (∀ p ∈ (update_metrics st status rt now).health_history,
        now - retention_window < p.1) ∧
    (∀ p ∈ (update_metrics st status rt now).response_times,
        now - retention_window < p.1) := by
  constructor <;>
    · intro p hp
      simp only [update_metrics, List.mem_filter, decide_eq_true_eq] at hp
      exact hp.2

/-- Witness for `record_prunes_both_lists`: the health sample recorded at
time `0` into the fresh session is newer than the cutoff. -/
theorem record_prunes_both_lists_witness :
    ((0 : ℚ), true) ∈ (update_metrics initSession true none 0).health_history ∧
    (0 : ℚ) - retention_window < 0 :=
  ⟨by norm_num [update_metrics, initSession, retention_window],
   (record_prunes_both_lists initSession true none 0).1 (0, true)
     (by norm_num [update_metrics, initSession, retention_window])⟩

/-- C7: when the collection listing succeeds but the requested name is not
listed, `check_api_health` returns the unhealthy not-found result with no
latency, and recording that result appends a health sample (present
afterwards at the record timestamp) while the latency list is merely pruned,
with no sample appended. -/
theorem missing_collection_check_and_record (env : QdrantEnv) (collection_name : String)
    (cols : List String) (hcols : env.get_collections = .ok cols)
    (hmem : collection_name ∉ cols) (st : SessionState) (now : ℚ) :
    check_api_health env collection_name =
      ⟨false, .err ("Collection '" ++ collection_name ++ "' not found"), none⟩ ∧
    ((now, false) ∈
      (update_metrics st (check_api_health env collection_name).healthy
        (check_api_health env collection_name).latency_ms now).health_history) ∧
    (update_metrics st (check_api_health env collection_name).healthy
        (check_api_health env collection_name).latency_ms now).response_times =
      st.response_times.filter (fun p => decide (now - retention_window < p.1)) := by
  have hc : check_api_health env collection_name =
      ⟨false, .err ("Collection '" ++ collection_name ++ "' not found"), none⟩ := by
    simp [check_api_health, hcols, hmem]
  have hcut : now - retention_window < now := by
    rw [retention_window]; linarith
  refine ⟨hc, ?_, ?_⟩
  · rw [hc]
    simp only [update_metrics, List.mem_filter, List.mem_append, List.mem_singleton,
      decide_eq_true_eq]
    exact ⟨Or.inr (by trivial), hcut⟩
  · rw [hc]
    simp [update_metrics]

/-- Witness for `missing_collection_check_and_record` at the concrete
environment `envMissing` and the missing collection name `"b"`. -/
theorem missing_collection_check_and_record_witness :
    envMissing.get_collections = .ok ["a"] ∧ ("b" : String) ∉ (["a"] : List String) ∧
    (check_api_health envMissing "b" =
      ⟨false, .err ("Collection '" ++ "b" ++ "' not found"), none⟩ ∧
     ((0 : ℚ), false) ∈
       (update_metrics initSession (check_api_health envMissing "b").healthy
         (check_api_health envMissing "b").latency_ms 0).health_history ∧
     (update_metrics initSession (check_api_health envMissing "b").healthy
         (check_api_health envMissing "b").latency_ms 0).response_times =
       initSession.response_times.filter
         (fun p => decide ((0 : ℚ) - retention_window < p.1))) :=
  ⟨rfl, by decide,
   missing_collection_check_and_record envMissing "b" ["a"] rfl (by decide) initSession 0⟩

/-- Projecting timestamps out of a timestamp-filtered sample list is the
same as filtering the projected timestamps. -/
theorem map_fst_filter {β : Type} (q : ℚ → Bool) (l : List (ℚ × β)) :
    (l.filter (fun p => q p.1)).map Prod.fst = (l.map Prod.fst).filter q := by
  induction l with
  | nil => rfl
  | cons a t ih => by_cases h : q a.1 <;> simp [List.filter_cons, h, ih]

/-- Pruning two sample lists with one shared timestamp cutoff preserves the
timestamp-sublist relation between them. -/
theorem sublist_filter_timestamps (c : ℚ) (l : List (ℚ × ℚ)) (l' : List (ℚ × Bool))
    (h : List.Sublist (l.map Prod.fst) (l'.map Prod.fst)) :
    List.Sublist ((l.filter (fun p => decide (c < p.1))).map Prod.fst)
      ((l'.filter (fun p => decide (c < p.1))).map Prod.fst) := by
  rw [map_fst_filter (fun t => decide (c < t)), map_fst_filter (fun t => decide (c < t))]
  exact List.Sublist.filter _ h

/-- One `update_metrics` call preserves the invariant that the latency-list
timestamps form a sublist of the health-list timestamps: both lists are
pruned with the one cutoff `now - retention_window`, and a latency sample is
only ever appended together with a health sample at the same timestamp. -/
theorem update_metrics_timestamps_sublist (st : SessionState) (status : Bool)
    (rt : Option ℚ) (now : ℚ)
    (h : List.Sublist (st.response_times.map Prod.fst) (st.health_history.map Prod.fst)) :
    List.Sublist ((update_metrics st status rt now).response_times.map Prod.fst)
      ((update_metrics st status rt now).health_history.map Prod.fst) := by
  cases rt with
  | none =>
      show List.Sublist
        ((st.response_times.filter
            (fun p => decide (now - retention_window < p.1))).map Prod.fst)
        (((st.health_history ++ [(now, status)]).filter
            (fun p => decide (now - retention_window < p.1))).map Prod.fst)
      refine sublist_filter_timestamps (now - retention_window) _ _ ?_
      rw [List.map_append]
      exact List.sublist_append_of_sublist_left h
  | some r =>
      show List.Sublist
        (((if r ≠ 0 then st.response_times ++ [(now, r)] else st.response_times).filter
            (fun p => decide (now - retention_window < p.1))).map Prod.fst)
        (((st.health_history ++ [(now, status)]).filter
            (fun p => decide (now - retention_window < p.1))).map Prod.fst)
      by_cases hr : r ≠ 0
      · rw [if_pos hr]
        refine sublist_filter_timestamps (now - retention_window) _ _ ?_
        simp only [List.map_append, List.map_cons, List.map_nil]
        exact List.Sublist.append h (List.Sublist.refl _)
      · rw [if_neg hr]
        refine sublist_filter_timestamps (now - retention_window) _ _ ?_
        rw [List.map_append]
        exact List.sublist_append_of_sublist_left h

/-- Folding any call sequence through `update_metrics` preserves the
timestamp-sublist invariant. -/
theorem run_updates_timestamps_sublist (calls : List (Bool × Option ℚ × ℚ)) :
    ∀ st : SessionState,
      List.Sublist (st.response_times.map Prod.fst) (st.health_history.map Prod.fst) →
      List.Sublist ((run_updates st calls).response_times.map Prod.fst)
        ((run_updates st calls).health_history.map Prod.fst) := by
  induction calls with
  | nil => intro st h; simpa [run_updates] using h
  | cons c t ih =>
      intro st h
      simpa [run_updates] using
        ih (update_metrics st c.1 c.2.1 c.2.2)
          (update_metrics_timestamps_sublist st c.1 c.2.1 c.2.2 h)

/-- C9: after any sequence of recorded checks starting from the fresh
session, the latency-sample list is never longer than the health-sample
list; each record prunes both lists with the single cutoff
`now - retention_window`, so the latency timestamps stay a sublist of the
health timestamps and the length inequality holds after every record. -/
theorem latency_list_never_longer_than_health (calls : List (Bool × Option ℚ × ℚ)) :
    (run_updates initSession calls).response_times.length ≤
      (run_updates initSession calls).health_history.length := by
  have h := run_updates_timestamps_sublist calls initSession (by simp [initSession])
  simpa using List.Sublist.length_le h

/-- C10: whatever the environment does, a probe result returned by
`check_api_health` carries a latency only if it is healthy: all three
unhealthy branches return no latency. -/
theorem latency_present_implies_healthy (env : QdrantEnv) (collection_name : String)
    (h : (check_api_health env collection_name).latency_ms.isSome = true) :
    (check_api_health env collection_name).healthy = true := by
  cases hcols : env.get_collections with
  | error e => rw [check_api_health, hcols] at h; simp at h
  | ok cols =>
      by_cases hmem : collection_name ∈ cols
      · cases hfetch : env.get_collection collection_name with
        | error e => simp [check_api_health, hcols, hmem, hfetch] at h
        | ok ci => simp [check_api_health, hcols, hmem, hfetch]
      · simp [check_api_health, hcols, hmem] at h

/-- Witness for `latency_present_implies_healthy` on the all-success
environment `envHealthy`. -/
theorem latency_present_implies_healthy_witness :
    (check_api_health envHealthy "a").latency_ms.isSome = true ∧
    (check_api_health envHealthy "a").healthy = true :=
  ⟨by simp [check_api_health, envHealthy],
   latency_present_implies_healthy envHealthy "a" (by simp [check_api_health, envHealthy])⟩

end QdrantMonitor
